import Mathlib

/-
  Verification development for the obmc-yadro-libdbussession session
  registry core (SessionManager / SessionItem).

  The definitions below are a shallow embedding of the C++ sources:
    * src/src/manager.cpp (the later variant in the file, lines 385-1100,
      which the claim line ranges reference; the earlier variant is noted
      where it differs)
    * src/src/session.cpp (the later variant, lines 1-113)
    * src/src/session.hpp (SessionItem destructor)
  Machine integers (std::size_t / uint64_t) are modelled as Nat with
  explicit `< 2 ^ 64` bounds where they matter; C++ exceptions are
  modelled as explicit error values; blocking D-Bus calls are modelled
  by an explicit environment record holding their outcomes.
-/

namespace Obmc

/-- The C++ exception taxonomy visible in the sources:
`std::logic_error` (transaction locked / owner not set),
sdbusplus `InvalidArgument`, the library's `UnknownUser`,
sdbusplus `InternalFailure`, a generic `std::exception` escaping a
blocking bus call, and `std::out_of_range` from `std::stoull`. -/
inductive CppError where
  | logicError
  | invalidArgument
  | unknownUser
  | internalFailure
  | busError
  | outOfRange
  deriving DecidableEq, Repr

/-- `using SessionIdentifier = std::size_t;` a 64-bit unsigned value. -/
abbrev SessionIdentifier := Nat

/-- One hexadecimal output digit of `std::hex` (lowercase, as
  `operator<<` prints). -/
def hexDigitChar (n : Nat) : Char :=
  if n < 10 then Char.ofNat (48 + n) else Char.ofNat (87 + n)

/-- The `k` base-16 digit values of `v`, most significant first, as
  `std::setw(k)` with `std::setfill('0')` pads them. -/
def hexDigitsList (k v : Nat) : List Nat :=
  (List.range k).map (fun i => v / 16 ^ (k - 1 - i) % 16)

/-- SessionManager::hexSessionId (manager.cpp:758-764): renders the
  identifier with `std::setfill('0') << std::setw(16) << std::hex`,
  i.e. exactly 16 lowercase hex digits, most significant first,
  zero padded. -/
def hexSessionId (sessionId : SessionIdentifier) : String :=
  String.mk ((hexDigitsList 16 sessionId).map hexDigitChar)

/-- C `isspace` on the default locale, as `std::stoull`'s initial
  whitespace skip uses it. -/
def isCSpace (c : Char) : Bool :=
  c = ' ' || c = '\t' || c = '\n' || c = '\x0b' || c = '\x0c' || c = '\r'

/-- Value of one hex digit as `strtoull` base 16 accepts it
  (decimal digits, lowercase and uppercase letters). -/
def hexCharValue (c : Char) : Option Nat :=
  if '0' ≤ c ∧ c ≤ '9' then some (c.toNat - 48)
  else if 'a' ≤ c ∧ c ≤ 'f' then some (c.toNat - 87)
  else if 'A' ≤ c ∧ c ≤ 'F' then some (c.toNat - 55)
  else none

/-- The optional sign accepted by `strtoull`: returns
  (negate?, rest of the input). -/
def splitSign (l : List Char) : Bool × List Char :=
  match l with
  | [] => (false, [])
  | c :: r =>
    if c = '-' then (true, r)
    else if c = '+' then (false, r)
    else (false, c :: r)

/-- The optional `0x`/`0X` radix mark accepted by `strtoull` with base
  16; it is only consumed when a hex digit follows it. -/
def skipHexMark (l : List Char) : List Char :=
  match l with
  | c0 :: c1 :: c2 :: r =>
    if c0 = '0' ∧ (c1 = 'x' ∨ c1 = 'X') ∧ (hexCharValue c2).isSome
    then c2 :: r else c0 :: c1 :: c2 :: r
  | _ => l

/-- The run of hex digits that `std::stoull(s, nullptr, 16)` consumes
  (everything after it is ignored), as digit values. -/
def stoullDigits (s : String) : List Nat :=
  ((skipHexMark (splitSign (s.data.dropWhile isCSpace)).2).takeWhile
    (fun c => (hexCharValue c).isSome)).map (fun c => (hexCharValue c).getD 0)

/-- Whether `std::stoull` saw a minus sign. -/
def stoullNeg (s : String) : Bool :=
  (splitSign (s.data.dropWhile isCSpace)).1

/-- Base-16 value of a digit run, most significant digit first. -/
def decodeHex (ds : List Nat) : Nat :=
  ds.foldl (fun acc d => acc * 16 + d) 0

/-- `std::stoull(s, nullptr, 16)` as used by
  SessionManager::parseSessionId (manager.cpp:766-769): skip leading
  whitespace, accept an optional sign and an optional `0x` mark, consume
  the maximal run of hex digits (ignoring anything after it), fail with
  `std::invalid_argument` when no digit was consumed and with
  `std::out_of_range` when the value exceeds `ULLONG_MAX`; a minus sign
  negates modulo `2 ^ 64`. -/
def stoull16 (s : String) : Except CppError Nat :=
  if (stoullDigits s).isEmpty then .error .invalidArgument
  else if 2 ^ 64 ≤ decodeHex (stoullDigits s) then .error .outOfRange
  else .ok (if stoullNeg s then (2 ^ 64 - decodeHex (stoullDigits s)) % 2 ^ 64
            else decodeHex (stoullDigits s))

/-- SessionManager::parseSessionId (manager.cpp:766-769). -/
def parseSessionId (s : String) : Except CppError SessionIdentifier :=
  stoull16 s

/- Facts about the 16 possible output digits of `hexSessionId`. -/

theorem hexCharValue_hexDigitChar : ∀ n, n < 16 →
    hexCharValue (hexDigitChar n) = some n := by decide

theorem isCSpace_hexDigitChar : ∀ n, n < 16 →
    isCSpace (hexDigitChar n) = false := by decide

theorem hexDigitChar_ne_sign : ∀ n, n < 16 →
    hexDigitChar n ≠ '-' ∧ hexDigitChar n ≠ '+' := by decide

theorem hexDigitChar_ne_x : ∀ n, n < 16 →
    hexDigitChar n ≠ 'x' ∧ hexDigitChar n ≠ 'X' := by decide

theorem digits_lt (k v : Nat) : ∀ d ∈ hexDigitsList k v, d < 16 := by
  intro d hd
  simp only [hexDigitsList, List.mem_map, List.mem_range] at hd
  obtain ⟨i, -, rfl⟩ := hd
  exact Nat.mod_lt _ (by decide)

theorem dropWhile_space_digits (ds : List Nat) (h : ∀ d ∈ ds, d < 16) :
    (ds.map hexDigitChar).dropWhile isCSpace = ds.map hexDigitChar := by
  cases ds with
  | nil => rfl
  | cons a l =>
    simp only [List.map_cons, List.dropWhile_cons]
    rw [isCSpace_hexDigitChar a (h a (by simp))]
    simp

theorem splitSign_digits (ds : List Nat) (h : ∀ d ∈ ds, d < 16) :
    splitSign (ds.map hexDigitChar) = (false, ds.map hexDigitChar) := by
  cases ds with
  | nil => rfl
  | cons a l =>
    have ha := hexDigitChar_ne_sign a (h a (by simp))
    simp [splitSign, ha.1, ha.2]

theorem skipHexMark_digits (ds : List Nat) (h : ∀ d ∈ ds, d < 16) :
    skipHexMark (ds.map hexDigitChar) = ds.map hexDigitChar := by
  match ds with
  | [] => rfl
  | [a] => rfl
  | [a, b] => rfl
  | a :: b :: c :: r =>
    have hb := hexDigitChar_ne_x b (h b (by simp))
    simp only [List.map_cons, skipHexMark]
    rw [if_neg]
    rintro ⟨-, hx | hx, -⟩
    · exact hb.1 hx
    · exact hb.2 hx

theorem takeWhile_digits (ds : List Nat) (h : ∀ d ∈ ds, d < 16) :
    (ds.map hexDigitChar).takeWhile (fun c => (hexCharValue c).isSome)
      = ds.map hexDigitChar := by
  induction ds with
  | nil => rfl
  | cons a l ih =>
    simp only [List.map_cons, List.takeWhile_cons]
    rw [hexCharValue_hexDigitChar a (h a (by simp))]
    simp only [Option.isSome_some, if_true]
    rw [ih (fun d hd => h d (by simp [hd]))]

theorem map_val_digits (ds : List Nat) (h : ∀ d ∈ ds, d < 16) :
    (ds.map hexDigitChar).map (fun c => (hexCharValue c).getD 0) = ds := by
  induction ds with
  | nil => rfl
  | cons a l ih =>
    simp only [List.map_cons]
    rw [hexCharValue_hexDigitChar a (h a (by simp))]
    rw [ih (fun d hd => h d (by simp [hd]))]
    rfl

theorem stoullDigits_hexSessionId (v : Nat) :
    stoullDigits (hexSessionId v) = hexDigitsList 16 v := by
  have h := digits_lt 16 v
  have hdata : (hexSessionId v).data
      = (hexDigitsList 16 v).map hexDigitChar := rfl
  rw [stoullDigits, hdata, dropWhile_space_digits _ h, splitSign_digits _ h]
  rw [show ((false, (hexDigitsList 16 v).map hexDigitChar)).2
      = (hexDigitsList 16 v).map hexDigitChar from rfl]
  rw [skipHexMark_digits _ h, takeWhile_digits _ h, map_val_digits _ h]

theorem stoullNeg_hexSessionId (v : Nat) :
    stoullNeg (hexSessionId v) = false := by
  have h := digits_lt 16 v
  have hdata : (hexSessionId v).data
      = (hexDigitsList 16 v).map hexDigitChar := rfl
  rw [stoullNeg, hdata, dropWhile_space_digits _ h, splitSign_digits _ h]

theorem decodeHex_hexDigitsList (k : Nat) : ∀ v : Nat,
    decodeHex (hexDigitsList k v) = v % 16 ^ k := by
  induction k with
  | zero => intro v; simp [decodeHex, hexDigitsList, Nat.mod_one]
  | succ k ih =>
    intro v
    have hsplit : hexDigitsList (k + 1) v
        = hexDigitsList k (v / 16) ++ [v % 16] := by
      rw [hexDigitsList, hexDigitsList, List.range_succ, List.map_append]
      congr 1
      · apply List.map_congr_left
        intro i hi
        rw [List.mem_range] at hi
        have h1 : k + 1 - 1 - i = (k - 1 - i) + 1 := by omega
        rw [h1, pow_succ, Nat.div_div_eq_div_mul, mul_comm]
      · simp
    rw [hsplit]
    simp only [decodeHex] at ih ⊢
    rw [List.foldl_append, List.foldl_cons, List.foldl_nil, ih]
    rw [pow_succ, mul_comm (16 ^ k) 16, Nat.mod_mul]
    ring

theorem hexDigitsList_ne_nil (v : Nat) : hexDigitsList 16 v ≠ [] := by
  intro hE
  have := congrArg List.length hE
  simp [hexDigitsList] at this

/-- The rendered identifier string is exactly 16 characters. -/
theorem hexSessionId_length (sessionId : SessionIdentifier) :
    (hexSessionId sessionId).length = 16 := by
  simp [hexSessionId, String.length, hexDigitsList]

/-- Round trip: parsing the rendered hex string yields the identifier
  back, for any value of the 64-bit identifier type. -/
theorem parse_hexSessionId (sessionId : SessionIdentifier)
    (h : sessionId < 2 ^ 64) :
    parseSessionId (hexSessionId sessionId) = .ok sessionId := by
  have h16 : (16 : Nat) ^ 16 = 2 ^ 64 := by norm_num
  have hne : (hexDigitsList 16 sessionId).isEmpty = false := by
    cases hE : hexDigitsList 16 sessionId with
    | nil => exact absurd hE (hexDigitsList_ne_nil sessionId)
    | cons a l => rfl
  rw [parseSessionId, stoull16, stoullDigits_hexSessionId,
    stoullNeg_hexSessionId, decodeHex_hexDigitsList, h16,
    Nat.mod_eq_of_lt h, hne]
  simp only [Bool.false_eq_true, if_false]
  rw [if_neg (not_le.mpr h)]

/- ===== Data model: SessionItem and SessionManager state ===== -/

/-- The closed set of session kinds (`SessionItemServer::Type`, a
  generated sdbusplus enum; the claims do not depend on the particular
  constructors, only on it being a decidable-equality enum). -/
inductive SessionType where
  | hostConsole
  | managerConsole
  | webUI
  | redfish
  deriving DecidableEq, Repr

/-- Modelled from the spec: `dbus::utils::getLastSegmentFromObjectPath`
  lives in dbus.hpp, which is not among the sources; the spec describes
  user object paths `/xyz/openbmc_project/user/<name>` whose final path
  segment is the username, so this returns the characters after the last
  `/` of the path. -/
def getLastSegmentFromObjectPath (path : String) : String :=
  String.mk ((path.data.reverse.takeWhile (fun c => c ≠ '/')).reverse)

/-- One published session (class SessionItem, session.hpp:36-142).
  The D-Bus properties `sessionID`, `sessionType`, `remoteIPAddr`, the
  association list of the Definitions interface, and whether a cleanup
  callback is currently attached (`cleanupFn != nullptr`). -/
structure SessionItem where
  sessionID : String
  sessionType : SessionType
  remoteIPAddr : String
  associations : List (String × String × String)
  cleanupAttached : Bool
  deriving DecidableEq, Repr

/-- Outcome of the ObjectMapper GetObject existence check for a username
  in SessionItem::adjustSessionOwner: the user object is found, the
  reply is empty (unknown user), or the blocking call itself throws. -/
inductive ResolveOutcome where
  | resolved
  | unknown
  | failure
  deriving DecidableEq, Repr

/-- SessionManager::InternalSessionInfo (manager header). -/
structure InternalSessionInfo where
  id : SessionIdentifier
  username : String
  remoteAddress : String
  type : SessionType
  serviceName : String
  objectPath : String
  isOwn : Bool
  deriving DecidableEq, Repr

/-- Outcomes of the blocking D-Bus calls the registry makes, fixed as an
  explicit environment: `resolve` is the user-directory existence check,
  `discover` is the result of assembling the remote part of the session
  list (findSessionItemObjects + getSessionsInfo), `subTree` is the raw
  findSessionItemObjects result used by the unconditional removeAll
  (object path together with its service-name dictionary), and
  `closeRemote` is the outcome of callCloseSession on a given
  (serviceName, objectPath, withCleanup). -/
structure Env where
  resolve : String → ResolveOutcome
  discover : Except CppError (List (SessionIdentifier × InternalSessionInfo))
  subTree : Except CppError (List (String × List String))
  closeRemote : String → String → Bool → Option CppError

/-- State owned by one SessionManager instance (manager header):
  the identifier-keyed map of owned session handles, the
  pending-transaction flag and identifier, and the constructor
  parameters that identify the instance. -/
structure ManagerState where
  slug : String
  type : SessionType
  sessionItems : List (SessionIdentifier × SessionItem)
  pendingSessionBuild : Bool
  pendingSessionId : SessionIdentifier
  deriving DecidableEq, Repr

def serviceNameStartSegment : String := "xyz.openbmc_project.Session."

def serviceNameOf (st : ManagerState) : String :=
  serviceNameStartSegment ++ st.slug

def sessionManagerObjectPath : String := "/xyz/openbmc_project/session_manager"

def getSessionManagerObjectPath (st : ManagerState) : String :=
  sessionManagerObjectPath ++ "/" ++ st.slug

def getSessionObjectPath (st : ManagerState)
    (sessionId : SessionIdentifier) : String :=
  getSessionManagerObjectPath st ++ "/" ++ hexSessionId sessionId

/- std::map operations on the identifier-keyed association list. -/

def itemsLookup (l : List (SessionIdentifier × SessionItem))
    (k : SessionIdentifier) : Option SessionItem :=
  (l.find? (fun p => p.1 == k)).map (fun p => p.2)

/-- `std::map::emplace`: inserts only when the key is absent. -/
def itemsEmplace (l : List (SessionIdentifier × SessionItem))
    (k : SessionIdentifier) (v : SessionItem) :
    List (SessionIdentifier × SessionItem) :=
  if (l.find? (fun p => p.1 == k)).isSome then l else l ++ [(k, v)]

/-- In-place mutation of the mapped session object (the map stores a
  shared_ptr; mutating through it rewrites the stored object). -/
def itemsUpdate (l : List (SessionIdentifier × SessionItem))
    (k : SessionIdentifier) (v : SessionItem) :
    List (SessionIdentifier × SessionItem) :=
  l.map (fun p => if p.1 == k then (k, v) else p)

/-- `std::map::erase` by key. -/
def itemsErase (l : List (SessionIdentifier × SessionItem))
    (k : SessionIdentifier) : List (SessionIdentifier × SessionItem) :=
  l.filter (fun p => !(p.1 == k))

/- ===== SessionItem operations (session.cpp, later variant) ===== -/

/-- SessionItem::adjustSessionOwner (session.cpp:56-80): asks the
  ObjectMapper for the user object; an empty reply raises UnknownUser, a
  throwing call propagates; on success a single user association
  replaces any previous one. -/
def adjustSessionOwner (env : Env) (userName : String) (it : SessionItem) :
    Except CppError SessionItem :=
  match env.resolve userName with
  | .failure => .error .busError
  | .unknown => .error .unknownUser
  | .resolved => .ok { it with associations :=
      [("user", "session", "/xyz/openbmc_project/user/" ++ userName)] }

/-- SessionItem::setSessionMetadata (session.cpp:40-49): first adjusts
  the owner, then rejects an empty remote address with InvalidArgument,
  then records the address.  Returns the item state after the call
  together with the exception it raised, if any: a mutation made before
  the raise persists. -/
def setSessionMetadata (env : Env) (username remoteIPAddr : String)
    (it : SessionItem) : SessionItem × Option CppError :=
  match adjustSessionOwner env username it with
  | .error e => (it, some e)
  | .ok it2 =>
    if remoteIPAddr.isEmpty then (it2, some .invalidArgument)
    else ({ it2 with remoteIPAddr := remoteIPAddr }, none)

/-- SessionItem::getOwner (session.cpp:82-97): the first `user`
  association's object-path tail, or `std::logic_error` when no owner
  association exists. -/
def getOwner (it : SessionItem) : Except CppError String :=
  match it.associations.find? (fun a => a.1 == "user") with
  | some a => .ok (getLastSegmentFromObjectPath a.2.2)
  | none => .error .logicError

/-- SessionItem::~SessionItem (session.hpp:80-88): at storage release
  the attached cleanup callback, when present, is invoked once with
  `parseSessionId(sessionID())`; the returned list is the sequence of
  cleanup invocations the destructor performs. -/
def destructorInvocations (it : SessionItem) : List SessionIdentifier :=
  if it.cleanupAttached then
    match parseSessionId it.sessionID with
    | .ok n => [n]
    | .error _ => []
  else []

/- ===== SessionManager operations (manager.cpp, later variant) ===== -/

/-- SessionManager::isSessionBuildPending (manager.cpp:716-719). -/
def isSessionBuildPending (st : ManagerState) : Bool :=
  st.pendingSessionBuild

/-- SessionManager::resetPendginSessionBuild (manager.cpp:721-726):
  clears the pending flag and identifier (and notifies the waiting
  timer thread). -/
def resetPendginSessionBuild (st : ManagerState) : ManagerState :=
  { st with pendingSessionBuild := false, pendingSessionId := 0 }

/-- SessionManager::sessionBuildSucess (manager.cpp:935-938). -/
def sessionBuildSucess (st : ManagerState) : ManagerState :=
  resetPendginSessionBuild st

/-- The synchronous part of SessionManager::sessionBuildTimerStart
  (manager.cpp:899-933): marks the transaction pending and records its
  identifier before detaching the timer thread. -/
def sessionBuildTimerStart (sessionId : SessionIdentifier)
    (st : ManagerState) : ManagerState :=
  { st with pendingSessionBuild := true, pendingSessionId := sessionId }

/-- The body of the detached timer thread of
  SessionManager::sessionBuildTimerStart (manager.cpp:909-930) in the
  case where the 20 s condition-variable wait elapses: when the
  transaction is still pending it calls only resetPendginSessionBuild();
  it does not remove the pending session record from the store.  (The
  earlier variant of the same function, manager.cpp:360-376, called
  `remove(pendingSessionId)` before resetting.)  Returns the new state
  and the cleanup-callback invocations performed on this path. -/
def sessionBuildTimerTimeout (st : ManagerState) :
    ManagerState × List SessionIdentifier :=
  if st.pendingSessionBuild then (resetPendginSessionBuild st, [])
  else (st, [])

/-- SessionManager::create (manager.cpp:442-479): rejects when a build
  transaction is pending; builds the session object with the generated
  identifier's hex string, the manager's type and the given address;
  for a non-empty user name tries to associate the owner and returns the
  reserved identifier 0 on any failure, leaving the store untouched;
  otherwise emplaces the new record.  `freshId` stands for the
  generateSessionId() result. -/
def create (env : Env) (freshId : SessionIdentifier)
    (userName remoteAddress : String) (st : ManagerState) :
    Except CppError (SessionIdentifier × ManagerState) :=
  if st.pendingSessionBuild then .error .logicError
  else
    let item : SessionItem :=
      { sessionID := hexSessionId freshId
        sessionType := st.type
        remoteIPAddr := remoteAddress
        associations := []
        cleanupAttached := false }
    if userName.isEmpty then
      .ok (freshId,
        { st with sessionItems := itemsEmplace st.sessionItems freshId item })
    else
      match adjustSessionOwner env userName item with
      | .error _ => .ok (0, st)
      | .ok item2 =>
        .ok (freshId,
          { st with sessionItems :=
              itemsEmplace st.sessionItems freshId item2 })

/-- SessionManager::create with a cleanup callback
  (manager.cpp:481-494): forwards to create, skips the attachment when
  the reserved 0 came back, otherwise attaches the callback through
  `sessionItems.at` (which raises when the key is absent). -/
def createWithCleanup (env : Env) (freshId : SessionIdentifier)
    (userName remoteAddress : String) (st : ManagerState) :
    Except CppError (SessionIdentifier × ManagerState) :=
  match create env freshId userName remoteAddress st with
  | .error e => .error e
  | .ok (sessionId, st2) =>
    if sessionId = 0 then .ok (0, st2)
    else
      match itemsLookup st2.sessionItems sessionId with
      | some it =>
        let it2 : SessionItem := { it with cleanupAttached := true }
        .ok (sessionId,
          { st2 with sessionItems := itemsUpdate st2.sessionItems sessionId it2 })
      | none => .error .outOfRange

/-- SessionManager::startTransaction (manager.cpp:496-502): creates an
  ownerless session with address "0.0.0.0" (rejected with the
  transaction-locked logic error while one is pending, via create) and
  starts the timeout guard. -/
def startTransaction (env : Env) (freshId : SessionIdentifier)
    (st : ManagerState) :
    Except CppError (SessionIdentifier × ManagerState) :=
  match create env freshId "" "0.0.0.0" st with
  | .error e => .error e
  | .ok (sessionId, st2) =>
    .ok (sessionId, sessionBuildTimerStart sessionId st2)

/-- SessionManager::startTransaction with a cleanup callback
  (manager.cpp:504-510). -/
def startTransactionWithCleanup (env : Env) (freshId : SessionIdentifier)
    (st : ManagerState) :
    Except CppError (SessionIdentifier × ManagerState) :=
  match startTransaction env freshId st with
  | .error e => .error e
  | .ok (sessionId, st2) =>
    match itemsLookup st2.sessionItems sessionId with
    | some it =>
      let it2 : SessionItem := { it with cleanupAttached := true }
      .ok (sessionId,
        { st2 with sessionItems := itemsUpdate st2.sessionItems sessionId it2 })
    | none => .error .outOfRange

/-- SessionManager::commitSessionBuild (manager.cpp:512-552): raises
  InternalFailure when no transaction is pending, InvalidArgument when
  the pending record is gone; otherwise sets the metadata on the record:
  UnknownUser is absorbed by removing the record (without cleanup,
  locally) and falling through to sessionBuildSucess; any other
  setSessionMetadata failure keeps the record (with whatever partial
  mutation it already received) and raises InternalFailure; success
  stores the updated record and clears the pending state.  Returns the
  state after the call and the exception reaching the caller, if any. -/
def commitSessionBuild (env : Env) (username remoteIPAddr : String)
    (st : ManagerState) : ManagerState × Option CppError :=
  if !st.pendingSessionBuild then (st, some .internalFailure)
  else
    match itemsLookup st.sessionItems st.pendingSessionId with
    | none => (st, some .invalidArgument)
    | some it =>
      match setSessionMetadata env username remoteIPAddr it with
      | (it2, none) =>
        let items2 := itemsUpdate st.sessionItems st.pendingSessionId it2
        (sessionBuildSucess { st with sessionItems := items2 }, none)
      | (_, some .unknownUser) =>
        let items2 := itemsErase st.sessionItems st.pendingSessionId
        (sessionBuildSucess { st with sessionItems := items2 }, none)
      | (it2, some _) =>
        let items2 := itemsUpdate st.sessionItems st.pendingSessionId it2
        ({ st with sessionItems := items2 }, some .internalFailure)

/-- The locally-owned half of SessionManager::getAllSessions
  (manager.cpp:973-988): one InternalSessionInfo per owned record; the
  getOwner() call inside the loop throws std::logic_error for a record
  with no owner association, aborting the whole assembly. -/
def localSessionInfos (st : ManagerState) :
    List (SessionIdentifier × SessionItem) →
    Except CppError (List (SessionIdentifier × InternalSessionInfo))
  | [] => .ok []
  | (k, it) :: rest =>
    match getOwner it with
    | .error e => .error e
    | .ok owner =>
      match localSessionInfos st rest with
      | .error e => .error e
      | .ok tail =>
        .ok ((k,
          { id := k
            username := owner
            remoteAddress := it.remoteIPAddr
            type := it.sessionType
            serviceName := serviceNameOf st
            objectPath := getSessionObjectPath st k
            isOwn := true }) :: tail)

/-- `std::map::emplace` of the discovered remote entries into the list
  already holding the local ones: an id that is already present is not
  overwritten. -/
def mergeInfos
    (locals remotes : List (SessionIdentifier × InternalSessionInfo)) :
    List (SessionIdentifier × InternalSessionInfo) :=
  locals ++ remotes.filter
    (fun r => (locals.find? (fun p => p.1 == r.1)).isNone)

/-- SessionManager::getAllSessions (manager.cpp:973-992): assembles the
  local infos (which may throw via getOwner), then the remote ones via
  discovery (findSessionItemObjects + getSessionsInfo, whose outcome is
  `env.discover`), merging by emplace. -/
def getAllSessions (env : Env) (st : ManagerState) :
    Except CppError (List (SessionIdentifier × InternalSessionInfo)) :=
  match localSessionInfos st st.sessionItems with
  | .error e => .error e
  | .ok locals =>
    match env.discover with
    | .error e => .error e
    | .ok remotes => .ok (mergeInfos locals remotes)

/-- SessionManager::remove (manager.cpp:567-606): a locally-owned
  record is erased (clearing its callback first when withCleanup is
  false) and true is returned; otherwise false with localLookup, and
  otherwise bus-wide discovery via getAllSessions (whose exceptions
  propagate: there is no try/catch in remove) followed by a remote
  Close on the first match; false when the session is found nowhere.
  Returns success together with the new state and the cleanup
  invocations run by the released handle's destructor. -/
def remove (env : Env) (sessionId : SessionIdentifier)
    (withCleanup localLookup : Bool) (st : ManagerState) :
    Except CppError (Bool × ManagerState × List SessionIdentifier) :=
  match itemsLookup st.sessionItems sessionId with
  | some it =>
    let it2 := if withCleanup then it else { it with cleanupAttached := false }
    let st2 := { st with sessionItems := itemsErase st.sessionItems sessionId }
    .ok (true, st2, destructorInvocations it2)
  | none =>
    if localLookup then .ok (false, st, [])
    else
      match getAllSessions env st with
      | .error e => .error e
      | .ok sessionList =>
        match sessionList.find? (fun p => p.1 == sessionId) with
        | some p =>
          match env.closeRemote p.2.serviceName p.2.objectPath withCleanup with
          | none => .ok (true, st, [])
          | some e => .error e
        | none => .ok (false, st, [])

/-- SessionManager::getSessionInfo (manager.cpp:940-971): id 0 returns
  with the out-parameter untouched (modelled as `none`); a locally-owned
  record is read directly (getOwner may throw; the source also leaves
  the serviceName/objectPath/isOwn fields untouched on this path — they
  are filled here for definiteness); otherwise the discovery result is
  searched for the id and `std::invalid_argument` ("Session ID not
  found", the NotFound outcome) is raised when it is absent. -/
def getSessionInfo (env : Env) (sessionId : SessionIdentifier)
    (st : ManagerState) : Except CppError (Option InternalSessionInfo) :=
  if sessionId = 0 then .ok none
  else
    match itemsLookup st.sessionItems sessionId with
    | some it =>
      match getOwner it with
      | .error e => .error e
      | .ok owner =>
        .ok (some
          { id := sessionId
            username := owner
            remoteAddress := it.remoteIPAddr
            type := it.sessionType
            serviceName := serviceNameOf st
            objectPath := getSessionObjectPath st sessionId
            isOwn := true })
    | none =>
      match env.discover with
      | .error e => .error e
      | .ok remotes =>
        match remotes.find? (fun p => p.1 == sessionId) with
        | some p => .ok (some p.2)
        | none => .error .invalidArgument

/- ===== The removeAll family (manager.cpp:608-714) ===== -/

/-- The remote loop of removeAll(userName) (manager.cpp:621-630): each
  entry whose serviceName equals the argument (the comparison the source
  makes) is closed with an unguarded callCloseSession — a failure
  escapes the loop. -/
def closeMatchingByUser (env : Env) (userName : String) :
    List (SessionIdentifier × InternalSessionInfo) → Except CppError Nat
  | [] => .ok 0
  | (_, info) :: rest =>
    if userName = info.serviceName then
      match env.closeRemote info.serviceName info.objectPath true with
      | some e => .error e
      | none =>
        match closeMatchingByUser env userName rest with
        | .error e => .error e
        | .ok n => .ok (n + 1)
    else closeMatchingByUser env userName rest

/-- SessionManager::removeAll(userName) (manager.cpp:608-633): erases
  the owned records whose getOwner() equals userName (getOwner may
  throw), then walks the bus-wide list closing matches; no per-candidate
  try/catch exists in this variant, so any failure propagates. -/
def removeAllByUser (env : Env) (userName : String) (st : ManagerState) :
    Except CppError (Nat × ManagerState) :=
  match localSessionInfos st st.sessionItems with
  | .error e => .error e
  | .ok locals =>
    let keep := st.sessionItems.filter (fun p =>
      !(locals.any (fun q => q.1 == p.1 && q.2.username == userName)))
    let n := st.sessionItems.length - keep.length
    let st2 := { st with sessionItems := keep }
    match getAllSessions env st2 with
    | .error e => .error e
    | .ok sessionList =>
      match closeMatchingByUser env userName sessionList with
      | .error e => .error e
      | .ok m => .ok (n + m, st2)

/-- The remote loop of removeAll(type) (manager.cpp:676-685):
  unguarded callCloseSession on every entry of matching type. -/
def closeMatchingByType (env : Env) (ty : SessionType) :
    List (SessionIdentifier × InternalSessionInfo) → Except CppError Nat
  | [] => .ok 0
  | (_, info) :: rest =>
    if info.type = ty then
      match env.closeRemote info.serviceName info.objectPath true with
      | some e => .error e
      | none =>
        match closeMatchingByType env ty rest with
        | .error e => .error e
        | .ok n => .ok (n + 1)
    else closeMatchingByType env ty rest

/-- SessionManager::removeAll(type) (manager.cpp:663-688): erases the
  owned records of the given type, then walks the bus-wide list closing
  matches with an unguarded callCloseSession; no per-candidate try/catch
  exists in this variant, so a failure closing one candidate propagates
  to the caller. -/
def removeAllByType (env : Env) (ty : SessionType) (st : ManagerState) :
    Except CppError (Nat × ManagerState) :=
  let keep := st.sessionItems.filter (fun p => !(p.2.sessionType == ty))
  let n := st.sessionItems.length - keep.length
  let st2 := { st with sessionItems := keep }
  match getAllSessions env st2 with
  | .error e => .error e
  | .ok sessionList =>
    match closeMatchingByType env ty sessionList with
    | .error e => .error e
    | .ok m => .ok (n + m, st2)

/-- The remote loop of removeAllByRemoteAddress (manager.cpp:649-658):
  unguarded callCloseSession on every entry with the given address. -/
def closeMatchingByAddress (env : Env) (remoteAddress : String) :
    List (SessionIdentifier × InternalSessionInfo) → Except CppError Nat
  | [] => .ok 0
  | (_, info) :: rest =>
    if remoteAddress = info.remoteAddress then
      match env.closeRemote info.serviceName info.objectPath true with
      | some e => .error e
      | none =>
        match closeMatchingByAddress env remoteAddress rest with
        | .error e => .error e
        | .ok n => .ok (n + 1)
    else closeMatchingByAddress env remoteAddress rest

/-- SessionManager::removeAllByRemoteAddress (manager.cpp:635-661):
  same shape as removeAll(type), keyed on the remote address; again no
  per-candidate try/catch. -/
def removeAllByRemoteAddress (env : Env) (remoteAddress : String)
    (st : ManagerState) : Except CppError (Nat × ManagerState) :=
  let keep := st.sessionItems.filter (fun p =>
    !(p.2.remoteIPAddr == remoteAddress))
  let n := st.sessionItems.length - keep.length
  let st2 := { st with sessionItems := keep }
  match getAllSessions env st2 with
  | .error e => .error e
  | .ok sessionList =>
    match closeMatchingByAddress env remoteAddress sessionList with
    | .error e => .error e
    | .ok m => .ok (n + m, st2)

/-- The per-object loop of the unconditional removeAll
  (manager.cpp:695-712): entries with an empty service dictionary are
  skipped; callCloseSession failures are caught, logged and skipped;
  each successful close is counted. -/
def closeAllLoop (env : Env) : List (String × List String) → Nat
  | [] => 0
  | (objectPath, metaDict) :: rest =>
    match metaDict with
    | [] => closeAllLoop env rest
    | svc :: _ =>
      match env.closeRemote svc objectPath true with
      | none => closeAllLoop env rest + 1
      | some _ => closeAllLoop env rest

/-- SessionManager::removeAll() (manager.cpp:690-714): counts and
  clears every owned record, then walks the raw discovered object list,
  closing each entry inside a try/catch that logs and skips a failing
  candidate. -/
def removeAllUncond (env : Env) (st : ManagerState) :
    Except CppError (Nat × ManagerState) :=
  let n := st.sessionItems.length
  let st2 := { st with sessionItems := [] }
  match env.subTree with
  | .error e => .error e
  | .ok objects => .ok (n + closeAllLoop env objects, st2)

/- ===== Helper lemmas about the map operations ===== -/

theorem itemsLookup_eq_none_iff (l : List (SessionIdentifier × SessionItem))
    (k : SessionIdentifier) :
    itemsLookup l k = none ↔ ∀ p ∈ l, p.1 ≠ k := by
  simp [itemsLookup, List.find?_eq_none]

theorem find?_key_append (l : List (SessionIdentifier × SessionItem))
    (k : SessionIdentifier) (v : SessionItem) (h : ∀ p ∈ l, p.1 ≠ k) :
    (l ++ [(k, v)]).find? (fun p => p.1 == k) = some (k, v) := by
  induction l with
  | nil => simp
  | cons a t ih =>
    have ha : (a.1 == k) = false := by
      simp only [beq_eq_false_iff_ne, ne_eq]
      exact h a (by simp)
    simp only [List.cons_append, List.find?_cons, ha]
    exact ih (fun p hp => h p (by simp [hp]))

theorem itemsLookup_append_self (l : List (SessionIdentifier × SessionItem))
    (k : SessionIdentifier) (v : SessionItem) (h : itemsLookup l k = none) :
    itemsLookup (l ++ [(k, v)]) k = some v := by
  rw [itemsLookup, find?_key_append l k v ((itemsLookup_eq_none_iff l k).mp h)]
  rfl

theorem itemsEmplace_of_none (l : List (SessionIdentifier × SessionItem))
    (k : SessionIdentifier) (v : SessionItem) (h : itemsLookup l k = none) :
    itemsEmplace l k v = l ++ [(k, v)] := by
  have hf : (l.find? (fun p => p.1 == k)) = none := by
    have := h
    rw [itemsLookup] at this
    exact Option.map_eq_none'.mp this
  rw [itemsEmplace, hf]
  rfl

theorem itemsUpdate_append (l : List (SessionIdentifier × SessionItem))
    (k : SessionIdentifier) (v v2 : SessionItem) (h : itemsLookup l k = none) :
    itemsUpdate (l ++ [(k, v)]) k v2 = l ++ [(k, v2)] := by
  have hne := (itemsLookup_eq_none_iff l k).mp h
  rw [itemsUpdate, List.map_append]
  congr 1
  · calc l.map (fun p => if p.1 == k then (k, v2) else p)
        = l.map id := by
          apply List.map_congr_left
          intro p hp
          have : (p.1 == k) = false := by
            simp only [beq_eq_false_iff_ne, ne_eq]
            exact hne p hp
          simp [this]
      _ = l := List.map_id l
  · simp

theorem itemsErase_append (l : List (SessionIdentifier × SessionItem))
    (k : SessionIdentifier) (v : SessionItem) (h : itemsLookup l k = none) :
    itemsErase (l ++ [(k, v)]) k = l := by
  have hne := (itemsLookup_eq_none_iff l k).mp h
  rw [itemsErase, List.filter_append]
  have h1 : l.filter (fun p => !(p.1 == k)) = l := by
    rw [List.filter_eq_self]
    intro p hp
    simp only [Bool.not_eq_true', beq_eq_false_iff_ne, ne_eq]
    exact hne p hp
  have h2 : [(k, v)].filter (fun p => !(p.1 == k)) = [] := by simp
  rw [h1, h2, List.append_nil]

theorem itemsLookup_erase (l : List (SessionIdentifier × SessionItem))
    (k : SessionIdentifier) : itemsLookup (itemsErase l k) k = none := by
  rw [itemsLookup_eq_none_iff]
  intro p hp
  rw [itemsErase] at hp
  have := List.of_mem_filter hp
  simpa using this

theorem find?_update_self (l : List (SessionIdentifier × SessionItem))
    (k : SessionIdentifier) (v : SessionItem)
    (h : (l.find? (fun p => p.1 == k)).isSome) :
    (itemsUpdate l k v).find? (fun p => p.1 == k) = some (k, v) := by
  induction l with
  | nil => simp at h
  | cons a t ih =>
    by_cases ha : a.1 = k
    · rw [itemsUpdate, List.map_cons, if_pos (by simp [ha])]
      exact List.find?_cons_of_pos _ (by simp)
    · have ha2 : (a.1 == k) = false := by simp [ha]
      have h2 : (t.find? (fun p => p.1 == k)).isSome := by
        simp only [List.find?_cons, ha2] at h
        exact h
      simp only [itemsUpdate, List.map_cons, ha2, Bool.false_eq_true,
        if_false, List.find?_cons] at ih ⊢
      exact ih h2

theorem itemsLookup_update_self (l : List (SessionIdentifier × SessionItem))
    (k : SessionIdentifier) (v : SessionItem) (h : itemsLookup l k ≠ none) :
    itemsLookup (itemsUpdate l k v) k = some v := by
  have hs : (l.find? (fun p => p.1 == k)).isSome := by
    rw [Option.isSome_iff_ne_none]
    intro hn
    exact h (by rw [itemsLookup, hn]; rfl)
  rw [itemsLookup, find?_update_self l k v hs]
  rfl

/- ===== Helper lemmas about object path segments ===== -/

theorem takeWhile_append_all (p : Char → Bool) (l1 l2 : List Char)
    (h : ∀ c ∈ l1, p c = true) :
    (l1 ++ l2).takeWhile p = l1 ++ l2.takeWhile p := by
  induction l1 with
  | nil => simp
  | cons a t ih =>
    simp only [List.cons_append, List.takeWhile_cons, h a (by simp), if_true]
    rw [ih (fun c hc => h c (by simp [hc]))]

theorem lastSegment_userPath (u : String) (hu : ∀ c ∈ u.data, c ≠ '/') :
    getLastSegmentFromObjectPath ("/xyz/openbmc_project/user/" ++ u) = u := by
  have hdata : ("/xyz/openbmc_project/user/" ++ u).data
      = "/xyz/openbmc_project/user/".data ++ u.data := String.data_append _ _
  rw [getLastSegmentFromObjectPath, hdata, List.reverse_append]
  have hall : ∀ c ∈ u.data.reverse, (fun c => (c ≠ '/' : Bool)) c = true := by
    intro c hc
    rw [List.mem_reverse] at hc
    simp only [decide_eq_true_eq]
    exact hu c hc
  rw [takeWhile_append_all _ _ _ hall]
  have hpre : ("/xyz/openbmc_project/user/".data.reverse).takeWhile
      (fun c => (c ≠ '/' : Bool)) = [] := by decide
  rw [hpre, List.append_nil, List.reverse_reverse]

/- ===== Concrete scenarios used by the claim theorems ===== -/

/-- An environment in which every bus call succeeds, every user
  resolves, and no remote sessions exist. -/
def envOk : Env :=
  { resolve := fun _ => .resolved
    discover := .ok []
    subTree := .ok []
    closeRemote := fun _ _ _ => none }

/-- An environment in which the user directory reports every user as
  unknown. -/
def envUnknown : Env :=
  { resolve := fun _ => .unknown
    discover := .ok []
    subTree := .ok []
    closeRemote := fun _ _ _ => none }

/-- An environment in which assembling the remote session list throws. -/
def envDiscoverFail : Env :=
  { resolve := fun _ => .resolved
    discover := .error .busError
    subTree := .ok []
    closeRemote := fun _ _ _ => none }

/-- A freshly constructed manager for slug "SSH" with no sessions. -/
def st0 : ManagerState :=
  { slug := "SSH"
    type := .managerConsole
    sessionItems := []
    pendingSessionBuild := false
    pendingSessionId := 0 }

/-- The pending ownerless session produced by startTransaction with a
  cleanup callback, identifier 42, on `st0`. -/
def itemPend : SessionItem :=
  { sessionID := hexSessionId 42
    sessionType := .managerConsole
    remoteIPAddr := "0.0.0.0"
    associations := []
    cleanupAttached := true }

/-- The manager state while the identifier-42 build transaction is
  pending on `st0`. -/
def stPend : ManagerState :=
  { slug := "SSH"
    type := .managerConsole
    sessionItems := [(42, itemPend)]
    pendingSessionBuild := true
    pendingSessionId := 42 }

/- ===== C1 ===== -/

/-- C1: the claim says the timeout watcher removes the pending session
  record, fires its cleanup callback once with the identifier, and a
  subsequent getSessionInfo reports NotFound.  The timer-thread body at
  manager.cpp:899-933 only resets the pending flag: after the timeout
  the record is still in the store, no cleanup invocation happened, and
  getSessionInfo(42) finds the ownerless local record and throws
  logic_error from getOwner — not the NotFound (invalid_argument)
  outcome.  This contradicts the claim, the spec, and the
  startTransaction doc comment in the manager header ("Otherwise, the
  current session will be closed"); the earlier variant of the watcher
  (manager.cpp:360-376) did remove the record. -/
theorem timeout_leaves_record_and_skips_cleanup :
    startTransactionWithCleanup envOk 42 st0 = .ok (42, stPend) ∧
    sessionBuildTimerTimeout stPend
      = ({ stPend with pendingSessionBuild := false, pendingSessionId := 0 },
          []) ∧
    itemsLookup (sessionBuildTimerTimeout stPend).1.sessionItems 42
      = some itemPend ∧
    isSessionBuildPending (sessionBuildTimerTimeout stPend).1 = false ∧
    getSessionInfo envOk 42 (sessionBuildTimerTimeout stPend).1
      = .error .logicError :=
  ⟨rfl, rfl, rfl, rfl, rfl⟩

/- ===== C3 ===== -/

/-- C3: create with a non-empty user name that the identity directory
  cannot resolve returns the reserved identifier 0 and leaves the store
  untouched (no residual record); the cleanup-callback overload likewise
  returns 0 without attaching the callback (the state is returned
  unchanged, so no record holds a callback). -/
theorem create_unresolvable_returns_zero (env : Env)
    (freshId : SessionIdentifier) (userName remoteAddress : String)
    (st : ManagerState)
    (hp : isSessionBuildPending st = false)
    (hu : userName.isEmpty = false)
    (hr : env.resolve userName = .unknown) :
    create env freshId userName remoteAddress st = .ok (0, st) ∧
    createWithCleanup env freshId userName remoteAddress st = .ok (0, st) := by
  rw [isSessionBuildPending] at hp
  have h1 : create env freshId userName remoteAddress st = .ok (0, st) := by
    simp only [create, hp, Bool.false_eq_true, if_false, hu,
      adjustSessionOwner, hr]
  refine ⟨h1, ?_⟩
  rw [createWithCleanup, h1]
  rfl

/-- C3 witness: a concrete unresolvable user on a fresh manager. -/
theorem create_unresolvable_returns_zero_witness :
    create envUnknown 42 "ghost" "10.0.0.1" st0 = .ok (0, st0) ∧
    createWithCleanup envUnknown 42 "ghost" "10.0.0.1" st0 = .ok (0, st0) :=
  create_unresolvable_returns_zero envUnknown 42 "ghost" "10.0.0.1" st0
    rfl rfl rfl

/- ===== C6 ===== -/

/-- C6 counterexample: removing nonexistent identifier 5 with
  localOnly = false on a fresh manager, in an environment where
  assembling the bus-wide session list throws, propagates that
  exception to the caller instead of returning the claimed definite
  "not found" outcome. -/
theorem remove_nonexistent_propagates_discovery_failure :
    remove envDiscoverFail 5 true false st0 = .error .busError := rfl

/-- C6 amended: remove on an identifier that names no session returns
  false and raises no error provided the bus-wide session-list assembly
  succeeds and contains no match; an exception thrown while assembling
  that list is not caught and propagates to the caller. -/
theorem remove_nonexistent_returns_false (env : Env)
    (sessionId : SessionIdentifier) (withCleanup : Bool)
    (st : ManagerState)
    (sessionList : List (SessionIdentifier × InternalSessionInfo))
    (hl : itemsLookup st.sessionItems sessionId = none)
    (hg : getAllSessions env st = .ok sessionList)
    (hmiss : ∀ p ∈ sessionList, p.1 ≠ sessionId) :
    remove env sessionId withCleanup true st = .ok (false, st, []) ∧
    remove env sessionId withCleanup false st = .ok (false, st, []) := by
  have hfind : sessionList.find? (fun p => p.1 == sessionId) = none := by
    rw [List.find?_eq_none]
    intro x hx
    simp [hmiss x hx]
  constructor
  · simp only [remove, hl]
    rfl
  · simp only [remove, hl, hg, hfind]
    rfl

/-- C6 witness: identifier 5 on a fresh manager with a healthy bus. -/
theorem remove_nonexistent_returns_false_witness :
    remove envOk 5 true true st0 = .ok (false, st0, []) ∧
    remove envOk 5 true false st0 = .ok (false, st0, []) :=
  remove_nonexistent_returns_false envOk 5 true st0 [] rfl rfl
    (by intro p hp; simp at hp)

/-- The blank SessionItem that create builds before any owner
  association (manager.cpp:454-459). -/
def blankItem (freshId : SessionIdentifier) (ty : SessionType)
    (addr : String) : SessionItem :=
  { sessionID := hexSessionId freshId
    sessionType := ty
    remoteIPAddr := addr
    associations := []
    cleanupAttached := false }

/-- The manager state right after a successful startTransaction that
  generated `freshId`. -/
def postStartState (freshId : SessionIdentifier) (st : ManagerState) :
    ManagerState :=
  let items2 := itemsEmplace st.sessionItems freshId
    (blankItem freshId st.type "0.0.0.0")
  sessionBuildTimerStart freshId { st with sessionItems := items2 }

/- ===== C7 ===== -/

/-- C7: a successful startTransaction sets the pending flag (visible
  through isSessionBuildPending) and a second startTransaction issued
  while the first is unresolved fails with the transaction-locked
  std::logic_error, so at most one pending build transaction exists per
  registry instance. -/
theorem second_startTransaction_locked (env env2 : Env)
    (freshId freshId2 : SessionIdentifier) (st : ManagerState)
    (h : isSessionBuildPending st = false) :
    ∃ st2, startTransaction env freshId st = .ok (freshId, st2) ∧
      isSessionBuildPending st2 = true ∧
      startTransaction env2 freshId2 st2 = .error .logicError := by
  rw [isSessionBuildPending] at h
  refine ⟨postStartState freshId st, ?_, rfl, rfl⟩
  simp only [startTransaction, create, h, Bool.false_eq_true, if_false]
  rfl

/-- C7 witness: two consecutive startTransaction calls on a fresh
  manager. -/
theorem second_startTransaction_locked_witness :
    ∃ st2, startTransaction envOk 42 st0 = .ok (42, st2) ∧
      isSessionBuildPending st2 = true ∧
      startTransaction envOk 7 st2 = .error .logicError :=
  second_startTransaction_locked envOk envOk 42 7 st0 rfl

/- ===== C9 ===== -/

/-- C9 counterexample: "10zz" is not a hexadecimal rendering of any
  identifier, yet parseSessionId does not fail on it: std::stoull parses
  the leading "10" and ignores the trailing junk, returning 16. -/
theorem parseSessionId_accepts_malformed :
    parseSessionId "10zz" = .ok 16 := rfl

/-- C9 amended: hexSessionId renders a fixed-width 16-character
  zero-padded hexadecimal string and parseSessionId inverts it for
  every 64-bit identifier; parseSessionId does fail on an input with no
  leading hexadecimal numeral (e.g. "" or "xyz"), but not on every
  malformed input — a valid hex prefix is parsed and trailing junk is
  ignored. -/
theorem hexSessionId_fixed_width_roundtrip (sessionId : SessionIdentifier)
    (h : sessionId < 2 ^ 64) :
    (hexSessionId sessionId).length = 16 ∧
    parseSessionId (hexSessionId sessionId) = .ok sessionId ∧
    parseSessionId "" = .error .invalidArgument ∧
    parseSessionId "xyz" = .error .invalidArgument :=
  ⟨hexSessionId_length sessionId, parse_hexSessionId sessionId h, rfl, rfl⟩

/-- C9 witness: the round trip at identifier 3. -/
theorem hexSessionId_fixed_width_roundtrip_witness :
    (hexSessionId 3).length = 16 ∧
    parseSessionId (hexSessionId 3) = .ok 3 ∧
    parseSessionId "" = .error .invalidArgument ∧
    parseSessionId "xyz" = .error .invalidArgument :=
  hexSessionId_fixed_width_roundtrip 3 (by decide)

/- ===== C10 ===== -/

/-- C10: setSessionMetadata with a resolvable user and an empty remote
  address throws InvalidArgument, but only after adjustSessionOwner has
  already replaced the owner association, so the owner update persists
  although the call fails — the operation is not atomic on this error
  path. -/
theorem setSessionMetadata_empty_addr_owner_persists (env : Env)
    (username : String) (it : SessionItem)
    (hres : env.resolve username = .resolved) :
    setSessionMetadata env username "" it =
      ({ it with associations :=
          [("user", "session", "/xyz/openbmc_project/user/" ++ username)] },
        some .invalidArgument) := by
  simp only [setSessionMetadata, adjustSessionOwner, hres]
  rfl

/-- C10 witness: a concrete session handle and user "admin". -/
theorem setSessionMetadata_empty_addr_owner_persists_witness :
    setSessionMetadata envOk "admin" "" itemPend =
      ({ itemPend with associations :=
          [("user", "session", "/xyz/openbmc_project/user/" ++ "admin")] },
        some .invalidArgument) :=
  setSessionMetadata_empty_addr_owner_persists envOk "admin" itemPend rfl

/- ===== C2 ===== -/

/-- An environment in which the user-directory existence check itself
  throws. -/
def envResolveFail : Env :=
  { resolve := fun _ => .failure
    discover := .ok []
    subTree := .ok []
    closeRemote := fun _ _ _ => none }

/-- The session record after adjustSessionOwner has replaced the owner
  association with `username`. -/
def sessionWithOwner (it : SessionItem) (username : String) : SessionItem :=
  { it with associations :=
      [("user", "session", "/xyz/openbmc_project/user/" ++ username)] }

/-- C2: with a transaction pending and its record present,
  commitSessionBuild absorbs UnknownUser — the record is torn down
  (erased from the store) and no exception reaches the caller — while
  any other failure during metadata association (a throwing existence
  check, or the empty-address InvalidArgument) keeps the record in the
  store, keeps the transaction pending (so the commit can be retried),
  and raises InternalFailure. -/
theorem commit_error_paths (env : Env) (username remoteIPAddr : String)
    (st : ManagerState) (it : SessionItem)
    (hp : isSessionBuildPending st = true)
    (hit : itemsLookup st.sessionItems st.pendingSessionId = some it) :
    (env.resolve username = .unknown →
      commitSessionBuild env username remoteIPAddr st
        = (sessionBuildSucess
            { st with
              sessionItems := itemsErase st.sessionItems st.pendingSessionId },
            none) ∧
      itemsLookup (itemsErase st.sessionItems st.pendingSessionId)
        st.pendingSessionId = none) ∧
    (env.resolve username = .failure →
      ∃ st2, commitSessionBuild env username remoteIPAddr st
          = (st2, some .internalFailure) ∧
        itemsLookup st2.sessionItems st.pendingSessionId ≠ none ∧
        isSessionBuildPending st2 = true) ∧
    (env.resolve username = .resolved → remoteIPAddr.isEmpty = true →
      ∃ st2, commitSessionBuild env username remoteIPAddr st
          = (st2, some .internalFailure) ∧
        itemsLookup st2.sessionItems st.pendingSessionId ≠ none ∧
        isSessionBuildPending st2 = true) := by
  rw [isSessionBuildPending] at hp
  have hnn : itemsLookup st.sessionItems st.pendingSessionId ≠ none := by
    rw [hit]
    exact Option.some_ne_none it
  refine ⟨?_, ?_, ?_⟩
  · intro hr
    constructor
    · simp only [commitSessionBuild, hp, Bool.not_true, Bool.false_eq_true,
        if_false, hit, setSessionMetadata, adjustSessionOwner, hr]
    · exact itemsLookup_erase _ _
  · intro hr
    refine ⟨{ st with
        sessionItems := itemsUpdate st.sessionItems st.pendingSessionId it },
      ?_, ?_, ?_⟩
    · simp only [commitSessionBuild, hp, Bool.not_true, Bool.false_eq_true,
        if_false, hit, setSessionMetadata, adjustSessionOwner, hr]
    · rw [itemsLookup_update_self _ _ _ hnn]
      exact Option.some_ne_none it
    · exact hp
  · intro hr haddr
    refine ⟨{ st with
        sessionItems := itemsUpdate st.sessionItems st.pendingSessionId (sessionWithOwner it username) },
      ?_, ?_, ?_⟩
    · simp only [commitSessionBuild, hp, Bool.not_true, Bool.false_eq_true,
        if_false, hit, setSessionMetadata, adjustSessionOwner, hr, haddr,
        if_true, sessionWithOwner]
    · rw [itemsLookup_update_self _ _ _ hnn]
      exact Option.some_ne_none _
    · exact hp

/-- C2 witness: the three failure modes on the concrete pending state
  `stPend`: an unknown user, a throwing existence check, and a valid
  user with an empty address. -/
theorem commit_error_paths_witness :
    (commitSessionBuild envUnknown "ghost" "10.0.0.1" stPend
        = (sessionBuildSucess
            { stPend with
              sessionItems := itemsErase stPend.sessionItems stPend.pendingSessionId },
            none) ∧
      itemsLookup (itemsErase stPend.sessionItems stPend.pendingSessionId)
        stPend.pendingSessionId = none) ∧
    (∃ st2, commitSessionBuild envResolveFail "ghost" "10.0.0.1" stPend
        = (st2, some .internalFailure) ∧
      itemsLookup st2.sessionItems stPend.pendingSessionId ≠ none ∧
      isSessionBuildPending st2 = true) ∧
    (∃ st2, commitSessionBuild envOk "admin" "" stPend
        = (st2, some .internalFailure) ∧
      itemsLookup st2.sessionItems stPend.pendingSessionId ≠ none ∧
      isSessionBuildPending st2 = true) :=
  ⟨(commit_error_paths envUnknown "ghost" "10.0.0.1" stPend itemPend
      rfl rfl).1 rfl,
   (commit_error_paths envResolveFail "ghost" "10.0.0.1" stPend itemPend
      rfl rfl).2.1 rfl,
   (commit_error_paths envOk "admin" "" stPend itemPend
      rfl rfl).2.2 rfl rfl⟩

/- ===== C4 ===== -/

/-- C4: after startTransaction, a commitSessionBuild with a resolvable
  user and a non-empty address succeeds: nothing reaches the caller,
  the pending state is cleared (isSessionBuildPending becomes false),
  and the committed record thereafter reports the given username as
  owner and the given address as its remote address. -/
theorem commit_after_start_reports_metadata (env : Env)
    (freshId : SessionIdentifier) (username remoteIPAddr : String)
    (st : ManagerState)
    (hp : isSessionBuildPending st = false)
    (hfresh : itemsLookup st.sessionItems freshId = none)
    (hres : env.resolve username = .resolved)
    (haddr : remoteIPAddr.isEmpty = false)
    (hslash : ∀ c ∈ username.data, c ≠ '/') :
    ∃ st2 it,
      startTransaction env freshId st = .ok (freshId, postStartState freshId st) ∧
      isSessionBuildPending (postStartState freshId st) = true ∧
      commitSessionBuild env username remoteIPAddr (postStartState freshId st)
        = (st2, none) ∧
      isSessionBuildPending st2 = false ∧
      itemsLookup st2.sessionItems freshId = some it ∧
      getOwner it = .ok username ∧
      it.remoteIPAddr = remoteIPAddr := by
  rw [isSessionBuildPending] at hp
  have hblank : itemsEmplace st.sessionItems freshId
      (blankItem freshId st.type "0.0.0.0")
      = st.sessionItems ++ [(freshId, blankItem freshId st.type "0.0.0.0")] :=
    itemsEmplace_of_none _ _ _ hfresh
  have hlook : itemsLookup (postStartState freshId st).sessionItems
      (postStartState freshId st).pendingSessionId
      = some (blankItem freshId st.type "0.0.0.0") := by
    show itemsLookup (itemsEmplace st.sessionItems freshId
      (blankItem freshId st.type "0.0.0.0")) freshId = _
    rw [hblank]
    exact itemsLookup_append_self _ _ _ hfresh
  refine ⟨{ st with
      sessionItems := st.sessionItems ++ [(freshId,
        { blankItem freshId st.type "0.0.0.0" with
            associations := [("user", "session",
              "/xyz/openbmc_project/user/" ++ username)],
            remoteIPAddr := remoteIPAddr })],
      pendingSessionBuild := false,
      pendingSessionId := 0 },
    { blankItem freshId st.type "0.0.0.0" with
        associations := [("user", "session",
          "/xyz/openbmc_project/user/" ++ username)],
        remoteIPAddr := remoteIPAddr },
    ?_, rfl, ?_, rfl, ?_, ?_, rfl⟩
  · simp only [startTransaction, create, hp, Bool.false_eq_true, if_false]
    rfl
  · simp only [commitSessionBuild, hlook, setSessionMetadata,
      adjustSessionOwner, hres, haddr, Bool.false_eq_true, if_false]
    show (sessionBuildSucess _, none) = _
    rw [show (postStartState freshId st).sessionItems
        = itemsEmplace st.sessionItems freshId
          (blankItem freshId st.type "0.0.0.0") from rfl]
    rw [show (postStartState freshId st).pendingSessionId = freshId from rfl]
    rw [hblank, itemsUpdate_append _ _ _ _ hfresh]
    rfl
  · exact itemsLookup_append_self _ _ _ hfresh
  · rw [getOwner]
    show Except.ok (getLastSegmentFromObjectPath
      ("/xyz/openbmc_project/user/" ++ username)) = _
    rw [lastSegment_userPath username hslash]

/-- C4 witness: user "admin" at address "10.0.0.1" on a fresh
  manager. -/
theorem commit_after_start_reports_metadata_witness :
    ∃ st2 it,
      startTransaction envOk 42 st0 = .ok (42, postStartState 42 st0) ∧
      isSessionBuildPending (postStartState 42 st0) = true ∧
      commitSessionBuild envOk "admin" "10.0.0.1" (postStartState 42 st0)
        = (st2, none) ∧
      isSessionBuildPending st2 = false ∧
      itemsLookup st2.sessionItems 42 = some it ∧
      getOwner it = .ok "admin" ∧
      it.remoteIPAddr = "10.0.0.1" :=
  commit_after_start_reports_metadata envOk 42 "admin" "10.0.0.1" st0
    rfl rfl rfl rfl (by decide)

/- ===== C5 ===== -/

/-- A remotely discovered web-UI session used by the C5
  counterexample. -/
def infoWeb : InternalSessionInfo :=
  { id := 7
    username := "alice"
    remoteAddress := "9.9.9.9"
    type := .webUI
    serviceName := "xyz.openbmc_project.Session.WEB"
    objectPath := "/xyz/openbmc_project/session_manager/WEB/0000000000000007"
    isOwn := false }

/-- An environment in which the remote Close call always throws. -/
def envCloseFail : Env :=
  { resolve := fun _ => .resolved
    discover := .ok [(7, infoWeb)]
    subTree := .ok []
    closeRemote := fun _ _ _ => some .busError }

/-- C5 counterexample: removeAll by session type on a registry with one
  matching remote candidate whose Close call fails propagates that
  failure to the caller instead of skipping the candidate and returning
  a count — the filtered removeAll variants have no per-candidate
  try/catch. -/
theorem removeAll_by_type_propagates_close_failure :
    removeAllByType envCloseFail .webUI st0 = .error .busError := rfl

theorem closeAllLoop_eq_filter (env : Env) :
    ∀ objects : List (String × List String),
    closeAllLoop env objects = (objects.filter (fun q =>
      decide (q.2 ≠ [] ∧
        env.closeRemote (q.2.headD "") q.1 true = none))).length := by
  intro objects
  induction objects with
  | nil => rfl
  | cons a rest ih =>
    obtain ⟨objectPath, metaDict⟩ := a
    cases metaDict with
    | nil => simp [closeAllLoop, List.filter_cons, ih]
    | cons svc restSvcs =>
      cases hcr : env.closeRemote svc objectPath true with
      | none => simp [closeAllLoop, hcr, List.filter_cons, ih]
      | some e => simp [closeAllLoop, hcr, List.filter_cons, ih]

/-- C5 amended: only the unconditional removeAll treats a candidate's
  close failure as non-fatal — with discovery succeeding it always
  returns a count (the owned records, counted unconditionally as they
  are cleared, plus the discovered candidates whose Close succeeded)
  and never propagates a close failure; the filtered variants (by user
  name, remote address, or session type) propagate the first failure
  while closing a remote candidate (see the counterexample). -/
theorem removeAllUncond_skips_close_failures (env : Env)
    (st : ManagerState) (objects : List (String × List String))
    (h : env.subTree = .ok objects) :
    removeAllUncond env st = .ok (st.sessionItems.length +
      (objects.filter (fun q => decide (q.2 ≠ [] ∧
        env.closeRemote (q.2.headD "") q.1 true = none))).length,
      { st with sessionItems := [] }) := by
  simp only [removeAllUncond, h]
  rw [closeAllLoop_eq_filter]

/-- An environment whose object list has one failing candidate, one
  succeeding candidate and one entry with an empty service
  dictionary. -/
def envMixed : Env :=
  { resolve := fun _ => .resolved
    discover := .ok []
    subTree := .ok [("/a", ["svcFail"]), ("/b", ["svcOk"]), ("/c", [])]
    closeRemote := fun svc _ _ =>
      if svc = "svcFail" then some .busError else none }

/-- C5 witness: the unconditional removeAll on a registry owning one
  session, with one failing remote candidate: the failure is skipped
  and the count is 2 (1 owned + 1 successfully closed). -/
theorem removeAllUncond_skips_close_failures_witness :
    removeAllUncond envMixed stPend = .ok (2, { stPend with sessionItems := [] }) := by
  have h := removeAllUncond_skips_close_failures envMixed stPend
    [("/a", ["svcFail"]), ("/b", ["svcOk"]), ("/c", [])] rfl
  rw [h]
  rfl

/- ===== C8 ===== -/

/-- C8: a session handle whose cleanup callback is attached invokes it
  exactly once at storage release, with the handle's own identifier
  (the parse of its hex sessionID property); removing the session with
  withCleanup = true releases the handle and produces exactly that one
  invocation, while remove with withCleanup = false clears the callback
  before releasing the handle, so it is never invoked. -/
theorem cleanup_callback_exactly_once (env : Env) (st : ManagerState)
    (sessionId : SessionIdentifier) (it : SessionItem)
    (hlt : sessionId < 2 ^ 64)
    (hid : it.sessionID = hexSessionId sessionId)
    (hatt : it.cleanupAttached = true)
    (hmem : itemsLookup st.sessionItems sessionId = some it) :
    destructorInvocations it = [sessionId] ∧
    remove env sessionId true true st = .ok (true,
      { st with sessionItems := itemsErase st.sessionItems sessionId },
      [sessionId]) ∧
    remove env sessionId false true st = .ok (true,
      { st with sessionItems := itemsErase st.sessionItems sessionId },
      []) := by
  have hd : destructorInvocations it = [sessionId] := by
    rw [destructorInvocations, hatt, hid, parse_hexSessionId _ hlt]
    rfl
  refine ⟨hd, ?_, ?_⟩
  · simp only [remove, hmem, if_true, hd]
  · simp only [remove, hmem]
    rfl

/-- C8 witness: the concrete pending session with an attached callback
  (`itemPend` in `stPend`). -/
theorem cleanup_callback_exactly_once_witness :
    destructorInvocations itemPend = [42] ∧
    remove envOk 42 true true stPend = .ok (true,
      { stPend with sessionItems := itemsErase stPend.sessionItems 42 },
      [42]) ∧
    remove envOk 42 false true stPend = .ok (true,
      { stPend with sessionItems := itemsErase stPend.sessionItems 42 },
      []) :=
  cleanup_callback_exactly_once envOk stPend 42 itemPend (by decide)
    rfl rfl rfl

end Obmc
